import Mathlib

/-!
# I2C LCD driver (PCF8574 expander wing FC-113, HD44780 controller)

Shallow embedding of `i2c-lcd.h` and `i2c-lcd.cpp`.

* A `uint8_t` is a natural number below 256; every conversion to `uint8_t`
  (parameter passing, assignment) is the explicit `u8`, i.e. `% 256`.
* A C `int` is represented by its residue modulo `2 ^ 32` (two's complement),
  which is only needed for the operator `~` (`cnot`).
* The hardware is the record `Hw`: the acknowledgement behaviour of the bus,
  the number of bytes clocked out so far, the bytes of the frame in progress
  and the trace of finished bus frames and sleeps, oldest first.
-/

/-! ## Machine arithmetic -/

/-- Conversion of an integer value to `uint8_t`. -/
def u8 (x : Nat) : Nat := x % 256

/-- The C operator `~` on a (32-bit, two's complement) `int`, on residues
modulo `2 ^ 32`. -/
def cnot (x : Nat) : Nat := 2 ^ 32 - 1 - x % 2 ^ 32

/-! ## Constants of `i2c-lcd.h` -/

def PCF8574T_WRITE : Nat := 0x4E
def PCF8574T_READ : Nat := 0x4F

def RS : Nat := 1 <<< 0
def RW : Nat := 1 <<< 1
def EN : Nat := 1 <<< 2
def BT : Nat := 1 <<< 3
def DB4 : Nat := 1 <<< 4
def DB5 : Nat := 1 <<< 5
def DB6 : Nat := 1 <<< 6
def DB7 : Nat := 1 <<< 7

def DB0 : Nat := 1 <<< 0
def DB1 : Nat := 1 <<< 1
def DB2 : Nat := 1 <<< 2
def DB3 : Nat := 1 <<< 3

def CLEAR_DISPLAY : Nat := DB0
def RETURN_HOME : Nat := DB1
def ENTRY_MODE_SET : Nat := DB2
def DISPLAY_ON : Nat := DB3
def CURSOR_SHIFT : Nat := DB4
def FUNCTION_SET : Nat := DB5
def SET_CGRAM_ADDRESS : Nat := DB6

def ENTRY_MODE_SHIFT_LEFT : Nat := ENTRY_MODE_SET ||| cnot DB1
def ENTRY_MODE_SHIFT_RIGHT : Nat := ENTRY_MODE_SET ||| DB1

def ENTRY_MODE_DISPLAY_SHIFT_LEFT : Nat := DB0 ||| ENTRY_MODE_SHIFT_LEFT
def ENTRY_MODE_DISPLAY_SHIFT_RIGHT : Nat := DB0 ||| ENTRY_MODE_SHIFT_RIGHT

/-- The value of the preprocessor symbol `DEBUG` (`#define DEBUG 1`). -/
def DEBUG : Nat := 1

/-! ## Hardware: bus and clock -/

/-- What the driver makes observable: a complete bus frame (the bytes clocked
out between a start and a stop condition) or a blocking sleep in ms. -/
inductive Event where
  | frame (bytes : List Nat)
  | sleep (ms : Nat)
deriving DecidableEq, Repr

/-- State of the bus and the clock.  `nak n` tells whether the device leaves
the `n`-th byte written on the bus unacknowledged. -/
structure Hw where
  nak : Nat → Bool
  calls : Nat
  pending : List Nat
  trace : List Event

/-- The mbed primitive `i2c.start()`: opens a frame. -/
def i2c_start (h : Hw) : Hw :=
  { h with pending := [] }

/-- The mbed primitive `i2c.write(int data)`: clocks one byte out and returns
`1` when the device acknowledged it, `0` when it did not. -/
def i2c_write (data : Nat) (h : Hw) : Nat × Hw :=
  (if h.nak h.calls then 0 else 1,
   { h with calls := h.calls + 1, pending := h.pending ++ [data % 256] })

/-- The mbed primitive `i2c.stop()`: closes the frame. -/
def i2c_stop (h : Hw) : Hw :=
  { h with pending := [], trace := h.trace ++ [Event.frame h.pending] }

/-- The mbed primitive `ThisThread::sleep_for(ms)`. -/
def sleep_for (ms : Nat) (h : Hw) : Hw :=
  { h with trace := h.trace ++ [Event.sleep ms] }

/-! ## `i2c-lcd.cpp` -/

/-- `void i2c_ioexpander_write(uint8_t value)`: start, address byte, value,
stop; both results of `i2c.write` are discarded and nothing is returned. -/
def i2c_ioexpander_write (value : Nat) (h : Hw) : Hw :=
  let value := u8 value
  let h := i2c_start h
  let h := (i2c_write PCF8574T_WRITE h).2
  let h := (i2c_write value h).2
  i2c_stop h

namespace I2cLcd

/-- `void I2cLcd::pulse_enable(uint8_t val)`. -/
def pulse_enable (val : Nat) (h : Hw) : Hw :=
  let val := u8 val
  let h := i2c_ioexpander_write ((val ||| BT) ||| EN) h
  let h := sleep_for 1 h
  let h := i2c_ioexpander_write ((val ||| BT) &&& cnot EN) h
  sleep_for 1 h

/-- `void I2cLcd::write4bits(uint8_t val)`. -/
def write4bits (val : Nat) (h : Hw) : Hw :=
  let val := u8 val
  let h := i2c_ioexpander_write val h
  pulse_enable val h

/-- `void I2cLcd::write(uint8_t val)`. -/
def write (val : Nat) (h : Hw) : Hw :=
  let val := u8 val
  let hnibble := u8 (val &&& 0xF0)
  let lnibble := u8 (val &&& 0x0F)
  let h := write4bits hnibble h
  write4bits (lnibble <<< 4) h

/-- `void I2cLcd::putchar(char c)`; `c` is the character code.  The two
masked values are converted to `uint8_t`, so they are the same for a signed
and for an unsigned `char`. -/
def putchar (c : Nat) (h : Hw) : Hw :=
  let hnibble := u8 (c &&& 0xF0)
  let lnibble := u8 (c &&& 0x0F)
  let h := write4bits ((RS ||| BT) ||| hnibble) h
  write4bits ((RS ||| BT) ||| (lnibble <<< 4)) h

/-- A counted loop `for (i = lo; i <= hi; i++) body(i)`; the counter is a
`uint8_t` and both bounds used by the driver stay below 255. -/
def for_incl (lo hi : Nat) (body : Nat → Hw → Hw) (h : Hw) : Hw :=
  (List.range' lo (hi + 1 - lo)).foldl (fun s i => body i s) h

/-- A counted loop `for (j = 0; j < n; j++) body`. -/
def for_below (n : Nat) (body : Hw → Hw) (h : Hw) : Hw :=
  (List.range n).foldl (fun s _ => body s) h

/-- `void I2cLcd::move_cursor_line2(void)`. -/
def move_cursor_line2 (h : Hw) : Hw :=
  let h := write RETURN_HOME h
  for_below 40 (write 0b00010100) h

/-- `void I2cLcd::move_cursor_line1(void)`. -/
def move_cursor_line1 (h : Hw) : Hw :=
  write RETURN_HOME h

/-! ### The constructor `I2cLcd::I2cLcd()`, stage by stage

The blocks under `#if 0` are not compiled and are left out. -/

/-- Lines 135-136: the power-up wait and the first expander write. -/
def ctor_power_settle (h : Hw) : Hw :=
  let h := sleep_for 600 h
  i2c_ioexpander_write (cnot BT) h

/-- Lines 151-163: page 42 steps 2, 3a and 3b. -/
def ctor_force_four_bit (h : Hw) : Hw :=
  let h := write4bits DB5 h
  let h := sleep_for 5 h
  let h := write4bits DB5 h
  let h := sleep_for 5 h
  let h := write4bits DB5 h
  sleep_for 150 h

/-- The argument of the `write` call of line 170. -/
def ctor_function_set_byte : Nat := (DB5 ||| DB3) ||| DB2

/-- Lines 170-171: the first full byte in 4 bit operation. -/
def ctor_function_set (h : Hw) : Hw :=
  let h := write ctor_function_set_byte h
  sleep_for 150 h

/-- Lines 177-180: page 42 step 4. -/
def ctor_display_control (h : Hw) : Hw :=
  let h := write4bits 0x00 h
  let h := write4bits (((DB7 ||| DB6) ||| DB5) ||| DB4) h
  sleep_for 5 h

/-- Lines 187-190: page 42 step 5. -/
def ctor_entry_mode_set (h : Hw) : Hw :=
  let h := write4bits 0x00 h
  let h := write4bits (DB6 ||| DB5) h
  sleep_for 5 h

/-- Lines 199-200: turn the LED on. -/
def ctor_backlight_on (h : Hw) : Hw :=
  let h := i2c_ioexpander_write BT h
  sleep_for 5 h

/-- Line 202. -/
def ctor_clear_display (h : Hw) : Hw :=
  write CLEAR_DISPLAY h

/-- Lines 205-220, compiled in when `DEBUG` is non-zero: the test pattern.
The characters `0`, `9`, `a`, `z` have the codes 48, 57, 97, 122. -/
def ctor_debug_pattern (h : Hw) : Hw :=
  let h := for_incl 48 57 putchar h
  let h := sleep_for 600 h
  let h := write RETURN_HOME h
  let h := for_below 40 (write 0b00010100) h
  let h := for_incl 97 122 putchar h
  sleep_for 600 h

set_option linter.dupNamespace false in
/-- The constructor `I2cLcd::I2cLcd()`. -/
def I2cLcd (h : Hw) : Hw :=
  let h := ctor_power_settle h
  let h := ctor_force_four_bit h
  let h := ctor_function_set h
  let h := ctor_display_control h
  let h := ctor_entry_mode_set h
  let h := ctor_backlight_on h
  let h := ctor_clear_display h
  if DEBUG ≠ 0 then ctor_debug_pattern h else h

end I2cLcd

/-! ## Observation of a run -/

/-- A bus on which nothing has happened yet. -/
def Hw.fresh (nak : Nat → Bool) : Hw :=
  { nak := nak, calls := 0, pending := [], trace := [] }

/-- The trace an operation emits on a fresh bus. -/
def run (op : Hw → Hw) (nak : Nat → Bool) : List Event :=
  (op (Hw.fresh nak)).trace

/-- The expander payloads of a trace: the second byte of every frame
(the first one is the device address). -/
def payloads : List Event → List Nat
  | [] => []
  | Event.frame bytes :: rest => bytes.tail ++ payloads rest
  | Event.sleep _ :: rest => payloads rest

/-- The bus on which every byte is acknowledged. -/
def allAck : Nat → Bool := fun _ => false

/-- The bus on which exactly the `k`-th byte (counted from 0) is left
unacknowledged. -/
def nakAt (k : Nat) : Nat → Bool := fun n => n == k

/-- The trace an operation emits, observed on the all-acknowledging bus. -/
def emitted (op : Hw → Hw) : List Event := run op allAck

/-! ## Observers used by the properties -/

/-- The sleep, in ms, at the head of a trace, up to its first frame. -/
def lead_sleep : List Event → Nat
  | Event.sleep ms :: rest => ms + lead_sleep rest
  | _ => 0

/-- For every frame of a trace, in order, the sleep in ms between that frame
and the next one (or the end of the trace). -/
def settle_after : List Event → List Nat
  | [] => []
  | Event.frame _ :: rest => lead_sleep rest :: settle_after rest
  | Event.sleep _ :: rest => settle_after rest

/-- OR a mask into the payload of a frame (the address byte stays); a sleep is
left as it is. -/
def or_into (m : Nat) : Event → Event
  | Event.frame (addr :: bytes) => Event.frame (addr :: bytes.map fun p => p ||| m)
  | e => e

/-- Receiver model: every payload whose EN bit is set latches a nibble, made of
the RS bit and the data lines (bits 4-7) of that payload. -/
def latch (ps : List Nat) : List (Bool × Nat) :=
  (ps.filter fun p => p &&& EN != 0).map fun p => (p &&& RS != 0, p &&& 0xF0)

/-- Receiver model: consecutive latched nibbles are assembled in pairs, the
first as the high and the second as the low half of a word; the word carries
the RS bit latched with its high half. -/
def assemble : List (Bool × Nat) → List (Bool × Nat)
  | (rs, hi) :: (_, lo) :: rest => (rs, hi ||| (lo >>> 4)) :: assemble rest
  | _ => []

/-- Receiver model: the words (RS, value) a trace delivers. -/
def receive (t : List Event) : List (Bool × Nat) :=
  assemble (latch (payloads t))

/-- Controller model of the address counter: the instruction Return-Home
(0x02) sets it to 0, the instruction cursor-shift-right (0x14) increments it,
every other word leaves it unchanged. -/
def ac_step (ac : Nat) (w : Bool × Nat) : Nat :=
  if w = (false, 0x02) then 0
  else if w = (false, 0x14) then ac + 1
  else ac

/-- Controller model: the address counter after a trace, started at `ac`. -/
def address_after (t : List Event) (ac : Nat) : Nat :=
  (receive t).foldl ac_step ac

/-! ## Traces do not depend on the bus state -/

/-- An operation extends the trace of every hardware state by the trace it
emits on a fresh, all-acknowledging bus. -/
def Emits (op : Hw → Hw) : Prop :=
  ∀ h : Hw, (op h).trace = h.trace ++ emitted op

theorem Emits.run_eq {op : Hw → Hw} (hop : Emits op) (nak : Nat → Bool) :
    run op nak = emitted op := by
  have := hop (Hw.fresh nak)
  simpa [run, Hw.fresh] using this

theorem emitted_seq {f g : Hw → Hw} (hg : Emits g) :
    emitted (fun h => g (f h)) = emitted f ++ emitted g := by
  show (g (f (Hw.fresh allAck))).trace = _
  rw [hg]
  rfl

theorem Emits.seq {f g : Hw → Hw} (hf : Emits f) (hg : Emits g) :
    Emits (fun h => g (f h)) := by
  intro h
  rw [emitted_seq hg, hg, hf, List.append_assoc]

theorem emits_sleep_for (ms : Nat) : Emits (sleep_for ms) := fun _ => rfl

theorem emits_i2c_ioexpander_write (value : Nat) : Emits (i2c_ioexpander_write value) :=
  fun _ => rfl

theorem emits_pulse_enable (val : Nat) : Emits (I2cLcd.pulse_enable val) := by
  intro h
  simp [emitted, run, Hw.fresh, I2cLcd.pulse_enable, i2c_ioexpander_write, i2c_start, i2c_write,
    i2c_stop, sleep_for]

theorem emits_write4bits (val : Nat) : Emits (I2cLcd.write4bits val) :=
  (emits_i2c_ioexpander_write _).seq (emits_pulse_enable _)

theorem emits_write (val : Nat) : Emits (I2cLcd.write val) :=
  (emits_write4bits _).seq (emits_write4bits _)

theorem emits_putchar (c : Nat) : Emits (I2cLcd.putchar c) :=
  (emits_write4bits _).seq (emits_write4bits _)

theorem foldl_trace {α : Type} (body : α → Hw → Hw) (hb : ∀ a, Emits (body a)) (l : List α)
    (h : Hw) :
    (l.foldl (fun s a => body a s) h).trace = h.trace ++ (l.map fun a => emitted (body a)).flatten := by
  induction l generalizing h with
  | nil => simp
  | cons a l ih => simp [ih, hb a h]

theorem emits_for_incl (lo hi : Nat) (body : Nat → Hw → Hw) (hb : ∀ i, Emits (body i)) :
    Emits (I2cLcd.for_incl lo hi body) := by
  intro h
  have e := foldl_trace body hb (List.range' lo (hi + 1 - lo))
  unfold emitted run I2cLcd.for_incl
  rw [e h, e (Hw.fresh allAck)]
  rfl

theorem emits_for_below (n : Nat) (body : Hw → Hw) (hb : Emits body) :
    Emits (I2cLcd.for_below n body) := by
  intro h
  have e := foldl_trace (fun _ : Nat => body) (fun _ => hb) (List.range n)
  unfold emitted run I2cLcd.for_below
  rw [e h, e (Hw.fresh allAck)]
  rfl

theorem payloads_append (s t : List Event) : payloads (s ++ t) = payloads s ++ payloads t := by
  induction s with
  | nil => rfl
  | cons e s ih =>
    cases e with
    | frame bytes => simp [payloads, ih]
    | sleep ms => simp [payloads, ih]

/-! ## The nibble and byte encoder -/

set_option maxRecDepth 100000 in
theorem write_shape : ∀ V : Fin 256,
    emitted (I2cLcd.write V.val) =
        emitted (I2cLcd.write4bits (V.val &&& 0xF0)) ++ emitted (I2cLcd.write4bits ((V.val &&& 0x0F) <<< 4))
      ∧ (payloads (emitted (I2cLcd.write4bits (V.val &&& 0xF0)))).length = 3
      ∧ (payloads (emitted (I2cLcd.write4bits ((V.val &&& 0x0F) <<< 4)))).length = 3
      ∧ (payloads (emitted (I2cLcd.write V.val))).length = 6
      ∧ (∀ p ∈ (payloads (emitted (I2cLcd.write V.val))).take 3, p &&& 0xF0 = V.val &&& 0xF0)
      ∧ (∀ p ∈ (payloads (emitted (I2cLcd.write V.val))).drop 3, p &&& 0xF0 = (V.val &&& 0x0F) <<< 4) := by
  decide

/-- C1: for every 8-bit value V, `write(V)` emits the trace of `write4bits` on
the high nibble followed by the trace of `write4bits` on the low nibble shifted
left by 4 (three transport writes each, six in total); the data lines (bits
4-7) of the first three payloads are bits 4-7 of V and those of the last three
are bits 0-3 of V shifted left by 4. -/
theorem C1_write_high_nibble_then_low (V : Nat) (hV : V < 256) (nak : Nat → Bool) :
    run (I2cLcd.write V) nak =
        run (I2cLcd.write4bits (V &&& 0xF0)) nak
          ++ run (I2cLcd.write4bits ((V &&& 0x0F) <<< 4)) nak
      ∧ (payloads (run (I2cLcd.write4bits (V &&& 0xF0)) nak)).length = 3
      ∧ (payloads (run (I2cLcd.write4bits ((V &&& 0x0F) <<< 4)) nak)).length = 3
      ∧ (payloads (run (I2cLcd.write V) nak)).length = 6
      ∧ (∀ p ∈ (payloads (run (I2cLcd.write V) nak)).take 3, p &&& 0xF0 = V &&& 0xF0)
      ∧ (∀ p ∈ (payloads (run (I2cLcd.write V) nak)).drop 3,
          p &&& 0xF0 = (V &&& 0x0F) <<< 4) := by
  rw [(emits_write V).run_eq nak, (emits_write4bits _).run_eq nak,
    (emits_write4bits _).run_eq nak]
  exact write_shape ⟨V, hV⟩

/-- C1 at V = 0xA5 on the all-acknowledging bus. -/
theorem C1_write_high_nibble_then_low_witness :
    0xA5 < 256 ∧
    (run (I2cLcd.write 0xA5) allAck =
        run (I2cLcd.write4bits (0xA5 &&& 0xF0)) allAck
          ++ run (I2cLcd.write4bits ((0xA5 &&& 0x0F) <<< 4)) allAck
      ∧ (payloads (run (I2cLcd.write4bits (0xA5 &&& 0xF0)) allAck)).length = 3
      ∧ (payloads (run (I2cLcd.write4bits ((0xA5 &&& 0x0F) <<< 4)) allAck)).length = 3
      ∧ (payloads (run (I2cLcd.write 0xA5) allAck)).length = 6
      ∧ (∀ p ∈ (payloads (run (I2cLcd.write 0xA5) allAck)).take 3, p &&& 0xF0 = 0xA5 &&& 0xF0)
      ∧ (∀ p ∈ (payloads (run (I2cLcd.write 0xA5) allAck)).drop 3,
          p &&& 0xF0 = (0xA5 &&& 0x0F) <<< 4)) :=
  ⟨by decide, C1_write_high_nibble_then_low 0xA5 (by decide) allAck⟩

/-- C2: `write4bits(0x04)` emits three transport writes, but the settle write
transmits the argument unchanged, so the EN bit the caller set is on the wire
before the strobe: the EN bits of the three payloads are 1, 1, 0, where the
claim requires 0, 1, 0. -/
theorem C2_write4bits_settle_write_keeps_caller_EN (nak : Nat → Bool) :
    payloads (run (I2cLcd.write4bits 0x04) nak) = [0x04, 0x0C, 0x08]
      ∧ (payloads (run (I2cLcd.write4bits 0x04) nak)).map (fun p => p &&& EN) = [EN, EN, 0] := by
  constructor <;> rfl

/-- C3: the backlight bit is not constant over one operation: in `write(0x01)`
(and in `write4bits(0x20)`, the first nibble the constructor sends) the settle
writes carry backlight 0 while the strobe and release writes carry backlight
1. -/
theorem C3_write_settle_write_drops_backlight (nak : Nat → Bool) :
    payloads (run (I2cLcd.write 0x01) nak) = [0x00, 0x0C, 0x08, 0x10, 0x1C, 0x18]
      ∧ (payloads (run (I2cLcd.write 0x01) nak)).map (fun p => p &&& BT) = [0, BT, BT, 0, BT, BT]
      ∧ (payloads (run (I2cLcd.write4bits 0x20) nak)).map (fun p => p &&& BT) = [0, BT, BT] := by
  refine ⟨?_, ?_, ?_⟩ <;> rfl

set_option maxRecDepth 100000 in
theorem putchar_shape : ∀ c : Fin 256,
    (payloads (emitted (I2cLcd.putchar c.val))).length = 6
      ∧ (∀ p ∈ payloads (emitted (I2cLcd.putchar c.val)), p &&& RS = RS)
      ∧ (∀ p ∈ (payloads (emitted (I2cLcd.putchar c.val))).take 3, p &&& 0xF0 = c.val &&& 0xF0)
      ∧ (∀ p ∈ (payloads (emitted (I2cLcd.putchar c.val))).drop 3,
          p &&& 0xF0 = (c.val &&& 0x0F) <<< 4) := by
  decide

/-- C4: for every 8-bit character code c, `putchar(c)` emits six transport
payloads, all with RS = 1; the data lines of the first three are `c & 0xF0`
and those of the last three are `(c & 0x0F) << 4`; for the letter A (0x41)
the data halves are 0x40 and then 0x10. -/
theorem C4_putchar_payloads (c : Nat) (hc : c < 256) (nak : Nat → Bool) :
    ((payloads (run (I2cLcd.putchar c) nak)).length = 6
      ∧ (∀ p ∈ payloads (run (I2cLcd.putchar c) nak), p &&& RS = RS)
      ∧ (∀ p ∈ (payloads (run (I2cLcd.putchar c) nak)).take 3, p &&& 0xF0 = c &&& 0xF0)
      ∧ (∀ p ∈ (payloads (run (I2cLcd.putchar c) nak)).drop 3,
          p &&& 0xF0 = (c &&& 0x0F) <<< 4))
      ∧ (payloads (run (I2cLcd.putchar 0x41) nak)).map (fun p => p &&& 0xF0)
          = [0x40, 0x40, 0x40, 0x10, 0x10, 0x10] := by
  refine ⟨?_, rfl⟩
  rw [(emits_putchar c).run_eq nak]
  exact putchar_shape ⟨c, hc⟩

/-- C4 at the letter z (0x7A) on the all-acknowledging bus. -/
theorem C4_putchar_payloads_witness :
    0x7A < 256 ∧
    (((payloads (run (I2cLcd.putchar 0x7A) allAck)).length = 6
      ∧ (∀ p ∈ payloads (run (I2cLcd.putchar 0x7A) allAck), p &&& RS = RS)
      ∧ (∀ p ∈ (payloads (run (I2cLcd.putchar 0x7A) allAck)).take 3, p &&& 0xF0 = 0x7A &&& 0xF0)
      ∧ (∀ p ∈ (payloads (run (I2cLcd.putchar 0x7A) allAck)).drop 3,
          p &&& 0xF0 = (0x7A &&& 0x0F) <<< 4))
      ∧ (payloads (run (I2cLcd.putchar 0x41) allAck)).map (fun p => p &&& 0xF0)
          = [0x40, 0x40, 0x40, 0x10, 0x10, 0x10]) :=
  ⟨by decide, C4_putchar_payloads 0x7A (by decide) allAck⟩

set_option maxRecDepth 100000 in
theorem write_control_bits : ∀ V : Fin 256,
    ∀ p ∈ payloads (emitted (I2cLcd.write V.val)), p &&& RS = 0 ∧ p &&& RW = 0 := by
  decide

/-- C5: for every 8-bit value V, every transport payload emitted by `write(V)`
has RS = 0 and R/W = 0. -/
theorem C5_write_is_command_form (V : Nat) (hV : V < 256) (nak : Nat → Bool) :
    ∀ p ∈ payloads (run (I2cLcd.write V) nak), p &&& RS = 0 ∧ p &&& RW = 0 := by
  rw [(emits_write V).run_eq nak]
  exact write_control_bits ⟨V, hV⟩

/-- C5 at V = 0xFF on the all-acknowledging bus. -/
theorem C5_write_is_command_form_witness :
    0xFF < 256 ∧
    (∀ p ∈ payloads (run (I2cLcd.write 0xFF) allAck), p &&& RS = 0 ∧ p &&& RW = 0) :=
  ⟨by decide, C5_write_is_command_form 0xFF (by decide) allAck⟩

/-! ## The constructor -/

theorem fresh_trace (nak : Nat → Bool) : (Hw.fresh nak).trace = [] := rfl

theorem trace_sleep_for (ms : Nat) (h : Hw) :
    (sleep_for ms h).trace = h.trace ++ [Event.sleep ms] := rfl

theorem trace_i2c_ioexpander_write (value : Nat) (h : Hw) :
    (i2c_ioexpander_write value h).trace = h.trace ++ emitted (i2c_ioexpander_write value) :=
  emits_i2c_ioexpander_write value h

theorem trace_write4bits (val : Nat) (h : Hw) :
    (I2cLcd.write4bits val h).trace = h.trace ++ emitted (I2cLcd.write4bits val) :=
  emits_write4bits val h

theorem trace_write (val : Nat) (h : Hw) :
    (I2cLcd.write val h).trace = h.trace ++ emitted (I2cLcd.write val) :=
  emits_write val h

theorem trace_for_incl_putchar (lo hi : Nat) (h : Hw) :
    (I2cLcd.for_incl lo hi I2cLcd.putchar h).trace
      = h.trace ++ ((List.range' lo (hi + 1 - lo)).map fun c => emitted (I2cLcd.putchar c)).flatten :=
  foldl_trace I2cLcd.putchar emits_putchar _ h

theorem trace_for_below_write (n val : Nat) (h : Hw) :
    (I2cLcd.for_below n (I2cLcd.write val) h).trace
      = h.trace ++ (List.replicate n (emitted (I2cLcd.write val))).flatten := by
  have e := foldl_trace (fun _ : Nat => I2cLcd.write val) (fun _ => emits_write val)
    (List.range n) h
  unfold I2cLcd.for_below
  rw [e]
  simp [List.map_const']

theorem emits_ctor_power_settle : Emits I2cLcd.ctor_power_settle := by
  intro h
  show (I2cLcd.ctor_power_settle h).trace
    = h.trace ++ (I2cLcd.ctor_power_settle (Hw.fresh allAck)).trace
  simp only [I2cLcd.ctor_power_settle, trace_sleep_for, trace_i2c_ioexpander_write, fresh_trace,
    List.append_assoc, List.nil_append]

theorem emits_ctor_force_four_bit : Emits I2cLcd.ctor_force_four_bit := by
  intro h
  show (I2cLcd.ctor_force_four_bit h).trace
    = h.trace ++ (I2cLcd.ctor_force_four_bit (Hw.fresh allAck)).trace
  simp only [I2cLcd.ctor_force_four_bit, trace_sleep_for, trace_write4bits, fresh_trace,
    List.append_assoc, List.nil_append]

theorem emits_ctor_function_set : Emits I2cLcd.ctor_function_set := by
  intro h
  show (I2cLcd.ctor_function_set h).trace
    = h.trace ++ (I2cLcd.ctor_function_set (Hw.fresh allAck)).trace
  simp only [I2cLcd.ctor_function_set, trace_sleep_for, trace_write, fresh_trace,
    List.append_assoc, List.nil_append]

theorem emits_ctor_display_control : Emits I2cLcd.ctor_display_control := by
  intro h
  show (I2cLcd.ctor_display_control h).trace
    = h.trace ++ (I2cLcd.ctor_display_control (Hw.fresh allAck)).trace
  simp only [I2cLcd.ctor_display_control, trace_sleep_for, trace_write4bits, fresh_trace,
    List.append_assoc, List.nil_append]

theorem emits_ctor_entry_mode_set : Emits I2cLcd.ctor_entry_mode_set := by
  intro h
  show (I2cLcd.ctor_entry_mode_set h).trace
    = h.trace ++ (I2cLcd.ctor_entry_mode_set (Hw.fresh allAck)).trace
  simp only [I2cLcd.ctor_entry_mode_set, trace_sleep_for, trace_write4bits, fresh_trace,
    List.append_assoc, List.nil_append]

theorem emits_ctor_backlight_on : Emits I2cLcd.ctor_backlight_on := by
  intro h
  show (I2cLcd.ctor_backlight_on h).trace
    = h.trace ++ (I2cLcd.ctor_backlight_on (Hw.fresh allAck)).trace
  simp only [I2cLcd.ctor_backlight_on, trace_sleep_for, trace_i2c_ioexpander_write, fresh_trace,
    List.append_assoc, List.nil_append]

theorem emits_ctor_clear_display : Emits I2cLcd.ctor_clear_display :=
  emits_write CLEAR_DISPLAY

/-- The trace of the test pattern, loop by loop. -/
theorem trace_ctor_debug_pattern (h : Hw) :
    (I2cLcd.ctor_debug_pattern h).trace =
      h.trace ++ (((List.range' 48 10).map fun c => emitted (I2cLcd.putchar c)).flatten
        ++ ([Event.sleep 600]
        ++ (emitted (I2cLcd.write RETURN_HOME)
        ++ ((List.replicate 40 (emitted (I2cLcd.write 0b00010100))).flatten
        ++ (((List.range' 97 26).map fun c => emitted (I2cLcd.putchar c)).flatten
        ++ [Event.sleep 600]))))) := by
  simp only [I2cLcd.ctor_debug_pattern, trace_sleep_for, trace_write, trace_for_incl_putchar,
    trace_for_below_write, List.append_assoc, List.nil_append]

theorem emitted_ctor_debug_pattern :
    emitted I2cLcd.ctor_debug_pattern =
      ((List.range' 48 10).map fun c => emitted (I2cLcd.putchar c)).flatten
        ++ ([Event.sleep 600]
        ++ (emitted (I2cLcd.write RETURN_HOME)
        ++ ((List.replicate 40 (emitted (I2cLcd.write 0b00010100))).flatten
        ++ (((List.range' 97 26).map fun c => emitted (I2cLcd.putchar c)).flatten
        ++ [Event.sleep 600])))) := by
  show (I2cLcd.ctor_debug_pattern (Hw.fresh allAck)).trace = _
  rw [trace_ctor_debug_pattern, fresh_trace, List.nil_append]

theorem emits_ctor_debug_pattern : Emits I2cLcd.ctor_debug_pattern := by
  intro h
  rw [trace_ctor_debug_pattern, emitted_ctor_debug_pattern]

/-- The trace of the constructor is the concatenation of the traces of its
stages, whatever the bus acknowledges. -/
theorem ctor_trace (nak : Nat → Bool) :
    run I2cLcd.I2cLcd nak =
      emitted I2cLcd.ctor_power_settle ++ (emitted I2cLcd.ctor_force_four_bit
        ++ (emitted I2cLcd.ctor_function_set ++ (emitted I2cLcd.ctor_display_control
        ++ (emitted I2cLcd.ctor_entry_mode_set ++ (emitted I2cLcd.ctor_backlight_on
        ++ (emitted I2cLcd.ctor_clear_display ++ emitted I2cLcd.ctor_debug_pattern)))))) := by
  have e : I2cLcd.I2cLcd (Hw.fresh nak) =
      I2cLcd.ctor_debug_pattern (I2cLcd.ctor_clear_display (I2cLcd.ctor_backlight_on
        (I2cLcd.ctor_entry_mode_set (I2cLcd.ctor_display_control (I2cLcd.ctor_function_set
          (I2cLcd.ctor_force_four_bit (I2cLcd.ctor_power_settle (Hw.fresh nak)))))))) := rfl
  unfold run
  rw [e, emits_ctor_debug_pattern, emits_ctor_clear_display, emits_ctor_backlight_on,
    emits_ctor_entry_mode_set, emits_ctor_display_control, emits_ctor_function_set,
    emits_ctor_force_four_bit, emits_ctor_power_settle, fresh_trace]
  simp only [List.append_assoc, List.nil_append]

set_option maxRecDepth 100000 in
theorem debug_pattern_payload_count :
    (payloads (emitted I2cLcd.ctor_debug_pattern)).length = 462 := by
  rw [emitted_ctor_debug_pattern]
  decide

theorem payloads_ctor_power_settle :
    payloads (emitted I2cLcd.ctor_power_settle) = [0xF7] := by decide

theorem payloads_ctor_force_four_bit :
    payloads (emitted I2cLcd.ctor_force_four_bit)
      = [0x20, 0x2C, 0x28, 0x20, 0x2C, 0x28, 0x20, 0x2C, 0x28] := by decide

theorem payloads_ctor_function_set :
    payloads (emitted I2cLcd.ctor_function_set) = [0x20, 0x2C, 0x28, 0xC0, 0xCC, 0xC8] := by
  decide

theorem payloads_ctor_display_control :
    payloads (emitted I2cLcd.ctor_display_control) = [0x00, 0x0C, 0x08, 0xF0, 0xFC, 0xF8] := by
  decide

theorem payloads_ctor_entry_mode_set :
    payloads (emitted I2cLcd.ctor_entry_mode_set) = [0x00, 0x0C, 0x08, 0x60, 0x6C, 0x68] := by
  decide

theorem payloads_ctor_backlight_on :
    payloads (emitted I2cLcd.ctor_backlight_on) = [0x08] := by decide

theorem payloads_ctor_clear_display :
    payloads (emitted I2cLcd.ctor_clear_display) = [0x00, 0x0C, 0x08, 0x10, 0x1C, 0x18] := by
  decide

/-- The payloads of the seven initialisation stages, in order: 1 + 9 + 6
+ 6 + 6 + 1 + 6 transport writes, followed by those of the test pattern. -/
theorem ctor_payloads (nak : Nat → Bool) :
    payloads (run I2cLcd.I2cLcd nak) =
      [0xF7,
       0x20, 0x2C, 0x28, 0x20, 0x2C, 0x28, 0x20, 0x2C, 0x28,
       0x20, 0x2C, 0x28, 0xC0, 0xCC, 0xC8,
       0x00, 0x0C, 0x08, 0xF0, 0xFC, 0xF8,
       0x00, 0x0C, 0x08, 0x60, 0x6C, 0x68,
       0x08,
       0x00, 0x0C, 0x08, 0x10, 0x1C, 0x18]
      ++ payloads (emitted I2cLcd.ctor_debug_pattern) := by
  rw [ctor_trace]
  simp only [payloads_append, payloads_ctor_power_settle, payloads_ctor_force_four_bit,
    payloads_ctor_function_set, payloads_ctor_display_control, payloads_ctor_entry_mode_set,
    payloads_ctor_backlight_on, payloads_ctor_clear_display, List.cons_append, List.nil_append]

theorem emitted_ctor_power_settle :
    emitted I2cLcd.ctor_power_settle = [Event.sleep 600, Event.frame [PCF8574T_WRITE, 0xF7]] := by
  decide

theorem emitted_ctor_force_four_bit :
    emitted I2cLcd.ctor_force_four_bit =
      emitted (I2cLcd.write4bits 0x20) ++ [Event.sleep 5]
        ++ emitted (I2cLcd.write4bits 0x20) ++ [Event.sleep 5]
        ++ emitted (I2cLcd.write4bits 0x20) ++ [Event.sleep 150] := by
  decide

theorem emitted_ctor_function_set :
    emitted I2cLcd.ctor_function_set =
      emitted (I2cLcd.write I2cLcd.ctor_function_set_byte) ++ [Event.sleep 150] := by
  decide

theorem emitted_ctor_display_control :
    emitted I2cLcd.ctor_display_control =
      emitted (I2cLcd.write4bits 0x00) ++ emitted (I2cLcd.write4bits 0xF0)
        ++ [Event.sleep 5] := by
  decide

theorem emitted_ctor_entry_mode_set :
    emitted I2cLcd.ctor_entry_mode_set =
      emitted (I2cLcd.write4bits 0x00) ++ emitted (I2cLcd.write4bits 0x60)
        ++ [Event.sleep 5] := by
  decide

theorem emitted_ctor_backlight_on :
    emitted I2cLcd.ctor_backlight_on = [Event.frame [PCF8574T_WRITE, 0x08], Event.sleep 5] := by
  decide

theorem emitted_ctor_clear_display :
    emitted I2cLcd.ctor_clear_display = emitted (I2cLcd.write 0x01) := by
  decide

/-- C6 (as stated, refuted): on the bus that leaves byte 21 unacknowledged, the
failure falls into the Function-Set stage (which clocks out bytes 20 to 31;
`i2c.write` of the first payload of the stage returns 0), and nevertheless the
19 transport writes of Display-Control, Entry-Mode-Set, Backlight-On and
Clear-Display are emitted after it. -/
theorem C6_counterexample_nak_during_function_set :
    (I2cLcd.ctor_force_four_bit (I2cLcd.ctor_power_settle (Hw.fresh (nakAt 21)))).calls = 20
      ∧ (i2c_write 0x20 (i2c_write PCF8574T_WRITE (i2c_start
          (I2cLcd.ctor_force_four_bit
            (I2cLcd.ctor_power_settle (Hw.fresh (nakAt 21)))))).2).1 = 0
      ∧ (I2cLcd.ctor_function_set (I2cLcd.ctor_force_four_bit
          (I2cLcd.ctor_power_settle (Hw.fresh (nakAt 21))))).calls = 32
      ∧ ((payloads (run I2cLcd.I2cLcd (nakAt 21))).drop 16).take 19 =
          [0x00, 0x0C, 0x08, 0xF0, 0xFC, 0xF8,
           0x00, 0x0C, 0x08, 0x60, 0x6C, 0x68,
           0x08,
           0x00, 0x0C, 0x08, 0x10, 0x1C, 0x18] := by
  refine ⟨rfl, rfl, rfl, ?_⟩
  rw [ctor_payloads]
  generalize payloads (emitted I2cLcd.ctor_debug_pattern) = X
  rfl

/-- C6 (amended): a transport write that is not acknowledged is not noticed:
for every acknowledgement behaviour of the bus the constructor emits the trace
it emits on the all-acknowledging bus, and after the 16 transport writes up to
and including Function-Set come the writes of Display-Control, Entry-Mode-Set,
Backlight-On and Clear-Display. -/
theorem C6_constructor_ignores_missing_acknowledgement (nak : Nat → Bool) :
    run I2cLcd.I2cLcd nak = run I2cLcd.I2cLcd allAck
      ∧ ((payloads (run I2cLcd.I2cLcd nak)).drop 16).take 19 =
          payloads (emitted I2cLcd.ctor_display_control)
            ++ payloads (emitted I2cLcd.ctor_entry_mode_set)
            ++ payloads (emitted I2cLcd.ctor_backlight_on)
            ++ payloads (emitted I2cLcd.ctor_clear_display) := by
  refine ⟨?_, ?_⟩
  · rw [ctor_trace, ctor_trace]
  · rw [ctor_payloads, payloads_ctor_display_control, payloads_ctor_entry_mode_set,
      payloads_ctor_backlight_on, payloads_ctor_clear_display]
    generalize payloads (emitted I2cLcd.ctor_debug_pattern) = X
    rfl

/-- The initialisation part of the constructor trace, event by event. -/
theorem ctor_trace_events (nak : Nat → Bool) :
    run I2cLcd.I2cLcd nak =
      [Event.sleep 600, Event.frame [0x4E, 0xF7],
       Event.frame [0x4E, 0x20], Event.frame [0x4E, 0x2C], Event.sleep 1,
       Event.frame [0x4E, 0x28], Event.sleep 1, Event.sleep 5,
       Event.frame [0x4E, 0x20], Event.frame [0x4E, 0x2C], Event.sleep 1,
       Event.frame [0x4E, 0x28], Event.sleep 1, Event.sleep 5,
       Event.frame [0x4E, 0x20], Event.frame [0x4E, 0x2C], Event.sleep 1,
       Event.frame [0x4E, 0x28], Event.sleep 1, Event.sleep 150,
       Event.frame [0x4E, 0x20], Event.frame [0x4E, 0x2C], Event.sleep 1,
       Event.frame [0x4E, 0x28], Event.sleep 1,
       Event.frame [0x4E, 0xC0], Event.frame [0x4E, 0xCC], Event.sleep 1,
       Event.frame [0x4E, 0xC8], Event.sleep 1, Event.sleep 150,
       Event.frame [0x4E, 0x00], Event.frame [0x4E, 0x0C], Event.sleep 1,
       Event.frame [0x4E, 0x08], Event.sleep 1,
       Event.frame [0x4E, 0xF0], Event.frame [0x4E, 0xFC], Event.sleep 1,
       Event.frame [0x4E, 0xF8], Event.sleep 1, Event.sleep 5,
       Event.frame [0x4E, 0x00], Event.frame [0x4E, 0x0C], Event.sleep 1,
       Event.frame [0x4E, 0x08], Event.sleep 1,
       Event.frame [0x4E, 0x60], Event.frame [0x4E, 0x6C], Event.sleep 1,
       Event.frame [0x4E, 0x68], Event.sleep 1, Event.sleep 5,
       Event.frame [0x4E, 0x08], Event.sleep 5,
       Event.frame [0x4E, 0x00], Event.frame [0x4E, 0x0C], Event.sleep 1,
       Event.frame [0x4E, 0x08], Event.sleep 1,
       Event.frame [0x4E, 0x10], Event.frame [0x4E, 0x1C], Event.sleep 1,
       Event.frame [0x4E, 0x18], Event.sleep 1]
      ++ emitted I2cLcd.ctor_debug_pattern := by
  have e1 : emitted I2cLcd.ctor_power_settle
      = [Event.sleep 600, Event.frame [0x4E, 0xF7]] := by decide
  have e2 : emitted I2cLcd.ctor_force_four_bit
      = [Event.frame [0x4E, 0x20], Event.frame [0x4E, 0x2C], Event.sleep 1,
         Event.frame [0x4E, 0x28], Event.sleep 1, Event.sleep 5,
         Event.frame [0x4E, 0x20], Event.frame [0x4E, 0x2C], Event.sleep 1,
         Event.frame [0x4E, 0x28], Event.sleep 1, Event.sleep 5,
         Event.frame [0x4E, 0x20], Event.frame [0x4E, 0x2C], Event.sleep 1,
         Event.frame [0x4E, 0x28], Event.sleep 1, Event.sleep 150] := by decide
  have e3 : emitted I2cLcd.ctor_function_set
      = [Event.frame [0x4E, 0x20], Event.frame [0x4E, 0x2C], Event.sleep 1,
         Event.frame [0x4E, 0x28], Event.sleep 1,
         Event.frame [0x4E, 0xC0], Event.frame [0x4E, 0xCC], Event.sleep 1,
         Event.frame [0x4E, 0xC8], Event.sleep 1, Event.sleep 150] := by decide
  have e4 : emitted I2cLcd.ctor_display_control
      = [Event.frame [0x4E, 0x00], Event.frame [0x4E, 0x0C], Event.sleep 1,
         Event.frame [0x4E, 0x08], Event.sleep 1,
         Event.frame [0x4E, 0xF0], Event.frame [0x4E, 0xFC], Event.sleep 1,
         Event.frame [0x4E, 0xF8], Event.sleep 1, Event.sleep 5] := by decide
  have e5 : emitted I2cLcd.ctor_entry_mode_set
      = [Event.frame [0x4E, 0x00], Event.frame [0x4E, 0x0C], Event.sleep 1,
         Event.frame [0x4E, 0x08], Event.sleep 1,
         Event.frame [0x4E, 0x60], Event.frame [0x4E, 0x6C], Event.sleep 1,
         Event.frame [0x4E, 0x68], Event.sleep 1, Event.sleep 5] := by decide
  have e6 : emitted I2cLcd.ctor_backlight_on
      = [Event.frame [0x4E, 0x08], Event.sleep 5] := by decide
  have e7 : emitted I2cLcd.ctor_clear_display
      = [Event.frame [0x4E, 0x00], Event.frame [0x4E, 0x0C], Event.sleep 1,
         Event.frame [0x4E, 0x08], Event.sleep 1,
         Event.frame [0x4E, 0x10], Event.frame [0x4E, 0x1C], Event.sleep 1,
         Event.frame [0x4E, 0x18], Event.sleep 1] := by decide
  rw [ctor_trace, e1, e2, e3, e4, e5, e6, e7]
  simp only [List.cons_append, List.nil_append]

/-- C7: the constructor runs its seven stages in the fixed order and emits the
same trace on every bus, but the write of its first stage is not a
backlight-only write: the payload is `(uint8_t)~BT` = 0xF7, with DB4-DB7, RS,
R/W and EN set and the backlight bit clear.  The stages are: the 600 ms wait
and that one direct expander write; the nibble 0x20 three times through
`write4bits` (followed by 5, 5 and 150 ms); the Function-Set byte through
`write`; the Display-Control byte as the nibbles 0x00, 0xF0; the
Entry-Mode-Set byte as the nibbles 0x00, 0x60; the direct write of the payload
0x08; `write(0x01)`; then the test pattern.  The trace of the seven stages is
also given event by event. -/
theorem C7_constructor_stages_first_write_not_backlight_only (nak : Nat → Bool) :
    run I2cLcd.I2cLcd nak =
        [Event.sleep 600, Event.frame [PCF8574T_WRITE, 0xF7]]
        ++ (emitted (I2cLcd.write4bits 0x20) ++ [Event.sleep 5]
            ++ emitted (I2cLcd.write4bits 0x20) ++ [Event.sleep 5]
            ++ emitted (I2cLcd.write4bits 0x20) ++ [Event.sleep 150])
        ++ (emitted (I2cLcd.write I2cLcd.ctor_function_set_byte) ++ [Event.sleep 150])
        ++ (emitted (I2cLcd.write4bits 0x00) ++ emitted (I2cLcd.write4bits 0xF0)
            ++ [Event.sleep 5])
        ++ (emitted (I2cLcd.write4bits 0x00) ++ emitted (I2cLcd.write4bits 0x60)
            ++ [Event.sleep 5])
        ++ [Event.frame [PCF8574T_WRITE, 0x08], Event.sleep 5]
        ++ emitted (I2cLcd.write 0x01)
        ++ emitted I2cLcd.ctor_debug_pattern
      ∧ (∀ nak2 : Nat → Bool, run I2cLcd.I2cLcd nak2 = run I2cLcd.I2cLcd nak)
      ∧ (payloads (run I2cLcd.I2cLcd nak)).head? = some (u8 (cnot BT))
      ∧ u8 (cnot BT) = 0xF7
      ∧ u8 (cnot BT) &&& BT = 0
      ∧ u8 (cnot BT) &&& (((0xF0 ||| RS) ||| RW) ||| EN) = ((0xF0 ||| RS) ||| RW) ||| EN
      ∧ u8 (cnot BT) ≠ 0 ∧ u8 (cnot BT) ≠ BT
      ∧ (run I2cLcd.I2cLcd nak =
        [Event.sleep 600, Event.frame [0x4E, 0xF7],
         Event.frame [0x4E, 0x20], Event.frame [0x4E, 0x2C], Event.sleep 1,
         Event.frame [0x4E, 0x28], Event.sleep 1, Event.sleep 5,
         Event.frame [0x4E, 0x20], Event.frame [0x4E, 0x2C], Event.sleep 1,
         Event.frame [0x4E, 0x28], Event.sleep 1, Event.sleep 5,
         Event.frame [0x4E, 0x20], Event.frame [0x4E, 0x2C], Event.sleep 1,
         Event.frame [0x4E, 0x28], Event.sleep 1, Event.sleep 150,
         Event.frame [0x4E, 0x20], Event.frame [0x4E, 0x2C], Event.sleep 1,
         Event.frame [0x4E, 0x28], Event.sleep 1,
         Event.frame [0x4E, 0xC0], Event.frame [0x4E, 0xCC], Event.sleep 1,
         Event.frame [0x4E, 0xC8], Event.sleep 1, Event.sleep 150,
         Event.frame [0x4E, 0x00], Event.frame [0x4E, 0x0C], Event.sleep 1,
         Event.frame [0x4E, 0x08], Event.sleep 1,
         Event.frame [0x4E, 0xF0], Event.frame [0x4E, 0xFC], Event.sleep 1,
         Event.frame [0x4E, 0xF8], Event.sleep 1, Event.sleep 5,
         Event.frame [0x4E, 0x00], Event.frame [0x4E, 0x0C], Event.sleep 1,
         Event.frame [0x4E, 0x08], Event.sleep 1,
         Event.frame [0x4E, 0x60], Event.frame [0x4E, 0x6C], Event.sleep 1,
         Event.frame [0x4E, 0x68], Event.sleep 1, Event.sleep 5,
         Event.frame [0x4E, 0x08], Event.sleep 5,
         Event.frame [0x4E, 0x00], Event.frame [0x4E, 0x0C], Event.sleep 1,
         Event.frame [0x4E, 0x08], Event.sleep 1,
         Event.frame [0x4E, 0x10], Event.frame [0x4E, 0x1C], Event.sleep 1,
         Event.frame [0x4E, 0x18], Event.sleep 1]
        ++ emitted I2cLcd.ctor_debug_pattern) := by
  refine ⟨?_, fun nak2 => ?_, ?_, by decide, by decide, by decide, by decide, by decide,
    ctor_trace_events nak⟩
  · rw [ctor_trace, emitted_ctor_power_settle, emitted_ctor_force_four_bit,
      emitted_ctor_function_set, emitted_ctor_display_control, emitted_ctor_entry_mode_set,
      emitted_ctor_backlight_on, emitted_ctor_clear_display]
    simp only [List.append_assoc]
  · rw [ctor_trace, ctor_trace]
  · rw [ctor_payloads]
    generalize payloads (emitted I2cLcd.ctor_debug_pattern) = X
    rfl

/-- C8 (as stated, refuted): the byte the Function-Set stage hands to `write`
is not 0x28: its font bit F (bit 2) is set, and the payloads the stage emits
differ from those of `write(0x28)`. -/
theorem C8_counterexample_function_set_byte_is_not_0x28 :
    I2cLcd.ctor_function_set_byte ≠ 0x28
      ∧ I2cLcd.ctor_function_set_byte &&& DB2 ≠ 0
      ∧ payloads (run I2cLcd.ctor_function_set allAck)
          ≠ payloads (run (I2cLcd.write 0x28) allAck) := by
  decide

/-- C8 (amended): the Function-Set byte that the constructor delivers through
`write` is 0x2C = DB5 | DB3 | DB2: a Function-Set instruction (bits 7-5 are
001) with DL = 0 (bit 4, 4-bit interface), N = 1 (bit 3, two lines) and F = 1
(bit 2, font bit set); it is the transfer at payload positions 10 to 15 of the
constructor. -/
theorem C8_function_set_byte_is_0x2C (nak : Nat → Bool) :
    I2cLcd.ctor_function_set_byte = 0x2C
      ∧ I2cLcd.ctor_function_set_byte &&& 0xE0 = FUNCTION_SET
      ∧ I2cLcd.ctor_function_set_byte &&& DB4 = 0
      ∧ I2cLcd.ctor_function_set_byte &&& DB3 = DB3
      ∧ I2cLcd.ctor_function_set_byte &&& DB2 = DB2
      ∧ I2cLcd.ctor_function_set_byte &&& 0x03 = 0
      ∧ run I2cLcd.ctor_function_set nak = run (I2cLcd.write 0x2C) nak ++ [Event.sleep 150]
      ∧ ((payloads (run I2cLcd.I2cLcd nak)).drop 10).take 6
          = payloads (run (I2cLcd.write 0x2C) nak) := by
  refine ⟨by decide, by decide, by decide, by decide, by decide, by decide, rfl, ?_⟩
  rw [ctor_payloads]
  generalize payloads (emitted I2cLcd.ctor_debug_pattern) = X
  rfl

set_option maxRecDepth 100000 in
theorem debug_pattern_first_payloads :
    (payloads (emitted I2cLcd.ctor_debug_pattern)).take 6
      = payloads (emitted (I2cLcd.putchar 48)) := by
  rw [emitted_ctor_debug_pattern]
  decide

set_option maxRecDepth 100000 in
theorem debug_pattern_last_payloads :
    (payloads (emitted I2cLcd.ctor_debug_pattern)).drop 456
      = payloads (emitted (I2cLcd.putchar 122)) := by
  rw [emitted_ctor_debug_pattern]
  decide

theorem ctor_payloads_drop_35 (nak : Nat → Bool) :
    (payloads (run I2cLcd.I2cLcd nak)).drop 35 = payloads (emitted I2cLcd.ctor_debug_pattern) := by
  rw [ctor_payloads]
  generalize payloads (emitted I2cLcd.ctor_debug_pattern) = X
  rfl

/-- C9 (as stated, refuted): the Clear-Display transfer occupies the payload
positions 29 to 34 of the constructor, and transport writes follow it: the
next six payloads are those of `putchar` of the digit 0 (code 48), and the
constructor emits 497 payloads in all. -/
theorem C9_counterexample_writes_follow_clear_display :
    ((payloads (run I2cLcd.I2cLcd allAck)).drop 29).take 6
        = payloads (run (I2cLcd.write CLEAR_DISPLAY) allAck)
      ∧ ((payloads (run I2cLcd.I2cLcd allAck)).drop 35).take 6
        = payloads (run (I2cLcd.putchar 48) allAck)
      ∧ (payloads (run I2cLcd.I2cLcd allAck)).length = 497 := by
  refine ⟨?_, ?_, ?_⟩
  · rw [ctor_payloads]
    generalize payloads (emitted I2cLcd.ctor_debug_pattern) = X
    rfl
  · rw [ctor_payloads_drop_35]
    exact debug_pattern_first_payloads
  · rw [ctor_payloads, List.length_append, debug_pattern_payload_count]
    rfl

/-- C9 (amended): Clear-Display is the last of the seven initialisation stages
but not the end of the constructor: `DEBUG` is 1, so after `write(0x01)` the
constructor emits the test pattern (`putchar` of the codes 48 to 57, 600 ms,
`write(RETURN_HOME)`, 40 times `write(0x14)`, `putchar` of the codes 97 to
122, 600 ms); 462 transport writes follow the Clear-Display transfer and the
last byte transfer of the constructor is `putchar` of the letter z. -/
theorem C9_clear_display_is_followed_by_test_pattern (nak : Nat → Bool) :
    DEBUG = 1
      ∧ run I2cLcd.I2cLcd nak =
          (emitted I2cLcd.ctor_power_settle ++ emitted I2cLcd.ctor_force_four_bit
            ++ emitted I2cLcd.ctor_function_set ++ emitted I2cLcd.ctor_display_control
            ++ emitted I2cLcd.ctor_entry_mode_set ++ emitted I2cLcd.ctor_backlight_on)
          ++ emitted (I2cLcd.write CLEAR_DISPLAY)
          ++ (((List.range' 48 10).map fun c => emitted (I2cLcd.putchar c)).flatten
            ++ [Event.sleep 600]
            ++ emitted (I2cLcd.write RETURN_HOME)
            ++ (List.replicate 40 (emitted (I2cLcd.write 0b00010100))).flatten
            ++ ((List.range' 97 26).map fun c => emitted (I2cLcd.putchar c)).flatten
            ++ [Event.sleep 600])
      ∧ ((payloads (run I2cLcd.I2cLcd nak)).drop 29).take 6
          = payloads (emitted (I2cLcd.write CLEAR_DISPLAY))
      ∧ ((payloads (run I2cLcd.I2cLcd nak)).drop 35).length = 462
      ∧ (payloads (run I2cLcd.I2cLcd nak)).drop 491
          = payloads (emitted (I2cLcd.putchar 122)) := by
  have e : emitted I2cLcd.ctor_clear_display = emitted (I2cLcd.write CLEAR_DISPLAY) := rfl
  refine ⟨rfl, ?_, ?_, ?_, ?_⟩
  · rw [ctor_trace, emitted_ctor_debug_pattern, e]
    simp only [List.append_assoc]
  · rw [ctor_payloads]
    generalize payloads (emitted I2cLcd.ctor_debug_pattern) = X
    rfl
  · rw [ctor_payloads_drop_35]
    exact debug_pattern_payload_count
  · have h : (payloads (run I2cLcd.I2cLcd nak)).drop 491
        = ((payloads (run I2cLcd.I2cLcd nak)).drop 35).drop 456 := by
      rw [List.drop_drop]
    rw [h, ctor_payloads_drop_35]
    exact debug_pattern_last_payloads

/-- C10: the first transport write of the constructor has the payload
`(uint8_t)~BT` = 0xF7: the data lines DB4-DB7, RS, R/W and EN are all set and
only the backlight bit is clear, where the claim requires a payload whose
data lines, RS, R/W and EN are zero. -/
theorem C10_first_write_sets_every_line_but_backlight (nak : Nat → Bool) :
    (payloads (run I2cLcd.I2cLcd nak)).head? = some (u8 (cnot BT))
      ∧ u8 (cnot BT) = 0xF7
      ∧ u8 (cnot BT) &&& 0xF0 = 0xF0
      ∧ u8 (cnot BT) &&& RS = RS
      ∧ u8 (cnot BT) &&& RW = RW
      ∧ u8 (cnot BT) &&& EN = EN
      ∧ u8 (cnot BT) &&& BT = 0 := by
  refine ⟨?_, by decide, by decide, by decide, by decide, by decide, by decide⟩
  rw [ctor_payloads]
  generalize payloads (emitted I2cLcd.ctor_debug_pattern) = X
  rfl

/-! ## Cursor movement -/

theorem trace_move_cursor_line1 (h : Hw) :
    (I2cLcd.move_cursor_line1 h).trace = h.trace ++ emitted (I2cLcd.write RETURN_HOME) :=
  emits_write RETURN_HOME h

theorem trace_move_cursor_line2 (h : Hw) :
    (I2cLcd.move_cursor_line2 h).trace =
      h.trace ++ (emitted (I2cLcd.write RETURN_HOME)
        ++ (List.replicate 40 (emitted (I2cLcd.write 0b00010100))).flatten) := by
  simp only [I2cLcd.move_cursor_line2, trace_write, trace_for_below_write, List.append_assoc]

theorem run_move_cursor_line2 (nak : Nat → Bool) :
    run I2cLcd.move_cursor_line2 nak =
      emitted (I2cLcd.write RETURN_HOME)
        ++ (List.replicate 40 (emitted (I2cLcd.write 0b00010100))).flatten := by
  unfold run
  rw [trace_move_cursor_line2, fresh_trace, List.nil_append]

theorem run_move_cursor_line2_then_line1 (nak : Nat → Bool) :
    run (fun h => I2cLcd.move_cursor_line1 (I2cLcd.move_cursor_line2 h)) nak =
      emitted (I2cLcd.write RETURN_HOME)
        ++ ((List.replicate 40 (emitted (I2cLcd.write 0b00010100))).flatten
        ++ emitted (I2cLcd.write RETURN_HOME)) := by
  unfold run
  rw [trace_move_cursor_line1, trace_move_cursor_line2, fresh_trace, List.nil_append,
    List.append_assoc]

set_option maxRecDepth 100000 in
theorem line2_payload_count :
    (payloads (emitted (I2cLcd.write RETURN_HOME)
      ++ (List.replicate 40 (emitted (I2cLcd.write 0b00010100))).flatten)).length = 246 := by
  decide

/-- C11: `move_cursor_line1()` emits exactly the trace of `write(0x02)`
(Return-Home), and `move_cursor_line2()` emits exactly that transfer followed
by 40 copies of the trace of `write(0x14)` and nothing else: 1 + 40 = 41 byte
transfers, 246 transport writes. -/
theorem C11_move_cursor_traces (nak : Nat → Bool) :
    RETURN_HOME = 0x02
      ∧ run I2cLcd.move_cursor_line1 nak = run (I2cLcd.write 0x02) nak
      ∧ run I2cLcd.move_cursor_line2 nak =
          run (I2cLcd.write 0x02) nak ++ (List.replicate 40 (run (I2cLcd.write 0x14) nak)).flatten
      ∧ (List.replicate 40 (run (I2cLcd.write 0x14) nak)).length = 40
      ∧ (payloads (run (I2cLcd.write 0x14) nak)).length = 6
      ∧ (payloads (run I2cLcd.move_cursor_line2 nak)).length = 246 := by
  refine ⟨rfl, rfl, ?_, rfl, rfl, ?_⟩
  · rw [run_move_cursor_line2, (emits_write 0x02).run_eq nak, (emits_write 0x14).run_eq nak]
    rfl
  · rw [run_move_cursor_line2]
    exact line2_payload_count

set_option maxRecDepth 100000 in
theorem receive_line1 :
    receive (emitted (I2cLcd.write RETURN_HOME)) = [(false, 0x02)] := by
  decide

set_option maxRecDepth 100000 in
theorem receive_line2 :
    receive (emitted (I2cLcd.write RETURN_HOME)
        ++ (List.replicate 40 (emitted (I2cLcd.write 0b00010100))).flatten)
      = (false, 0x02) :: List.replicate 40 (false, 0x14) := by
  decide

set_option maxRecDepth 100000 in
theorem receive_line2_then_line1 :
    receive (emitted (I2cLcd.write RETURN_HOME)
        ++ ((List.replicate 40 (emitted (I2cLcd.write 0b00010100))).flatten
        ++ emitted (I2cLcd.write RETURN_HOME)))
      = (false, 0x02) :: (List.replicate 40 (false, 0x14) ++ [(false, 0x02)]) := by
  decide

/-- C12: under the controller model in which Return-Home (0x02) sets the
address counter to 0 and cursor-shift-right (0x14) increments it, for every
starting address the counter after `move_cursor_line2()` followed by
`move_cursor_line1()` is the counter after `move_cursor_line1()` alone, namely
the home address 0; in between, after `move_cursor_line2()` alone, it is
40. -/
theorem C12_line2_then_line1_returns_home (ac : Nat) (nak : Nat → Bool) :
    address_after
        (run (fun h => I2cLcd.move_cursor_line1 (I2cLcd.move_cursor_line2 h)) nak) ac
        = address_after (run I2cLcd.move_cursor_line1 nak) ac
      ∧ address_after (run I2cLcd.move_cursor_line1 nak) ac = 0
      ∧ address_after (run I2cLcd.move_cursor_line2 nak) ac = 40 := by
  have h1 : address_after (run I2cLcd.move_cursor_line1 nak) ac = 0 := by
    have e : run I2cLcd.move_cursor_line1 nak = emitted (I2cLcd.write RETURN_HOME) :=
      (emits_write RETURN_HOME).run_eq nak
    unfold address_after
    rw [e, receive_line1]
    rfl
  have h2 : address_after
      (run (fun h => I2cLcd.move_cursor_line1 (I2cLcd.move_cursor_line2 h)) nak) ac = 0 := by
    unfold address_after
    rw [run_move_cursor_line2_then_line1, receive_line2_then_line1]
    rfl
  have h3 : address_after (run I2cLcd.move_cursor_line2 nak) ac = 40 := by
    unfold address_after
    rw [run_move_cursor_line2, receive_line2]
    rfl
  exact ⟨h2.trans h1.symm, h1, h3⟩

/-! ## Timing of the constructor and of the enable pulse -/

/-- C13: in the constructor's trace 600 ms of sleep precede the first
transport write, and the last write of every initialisation stage is followed
by at least the documented delay before the next write: at least 5 ms after
each of the three 4-bit-select sends (6, 6 and 151 ms), at least 150 ms after
Function-Set (151 ms), at least 5 ms after Display-Control (6 ms), after
Entry-Mode-Set (6 ms) and after the backlight-on write (5 ms).  The stages end
at the transport writes number 3, 6, 9, 15, 21, 27 and 28 (counted from 0);
the first 29 payloads and the sleep after each of them are listed. -/
theorem C13_constructor_delays (nak : Nat → Bool) :
    600 ≤ lead_sleep (run I2cLcd.I2cLcd nak)
      ∧ (payloads (run I2cLcd.I2cLcd nak)).take 29 =
          [0xF7,
           0x20, 0x2C, 0x28, 0x20, 0x2C, 0x28, 0x20, 0x2C, 0x28,
           0x20, 0x2C, 0x28, 0xC0, 0xCC, 0xC8,
           0x00, 0x0C, 0x08, 0xF0, 0xFC, 0xF8,
           0x00, 0x0C, 0x08, 0x60, 0x6C, 0x68,
           0x08]
      ∧ (settle_after (run I2cLcd.I2cLcd nak)).take 29 =
          [0,
           0, 1, 6, 0, 1, 6, 0, 1, 151,
           0, 1, 1, 0, 1, 151,
           0, 1, 1, 0, 1, 6,
           0, 1, 1, 0, 1, 6,
           5]
      ∧ 5 ≤ (settle_after (run I2cLcd.I2cLcd nak)).getD 3 0
      ∧ 5 ≤ (settle_after (run I2cLcd.I2cLcd nak)).getD 6 0
      ∧ 5 ≤ (settle_after (run I2cLcd.I2cLcd nak)).getD 9 0
      ∧ 150 ≤ (settle_after (run I2cLcd.I2cLcd nak)).getD 15 0
      ∧ 5 ≤ (settle_after (run I2cLcd.I2cLcd nak)).getD 21 0
      ∧ 5 ≤ (settle_after (run I2cLcd.I2cLcd nak)).getD 27 0
      ∧ 5 ≤ (settle_after (run I2cLcd.I2cLcd nak)).getD 28 0 := by
  rw [ctor_trace_events]
  generalize emitted I2cLcd.ctor_debug_pattern = X
  refine ⟨?_, rfl, rfl, ?_, ?_, ?_, ?_, ?_, ?_, ?_⟩ <;> exact Nat.le_of_ble_eq_true rfl

/-- C14: the hand-split nibble pairs of the Display-Control and Entry-Mode-Set
stages each deliver a full byte: `write4bits(0x00); write4bits(0xF0)` emits
the trace of `write(0x0F)` (display on, cursor on, blink on) and
`write4bits(0x00); write4bits(0x60)` emits the trace of `write(0x06)`
(increment address, no display shift); the two stages are these transfers
followed by their 5 ms sleep. -/
theorem C14_hand_split_nibbles_are_full_bytes (nak : Nat → Bool) :
    run (fun h => I2cLcd.write4bits (((DB7 ||| DB6) ||| DB5) ||| DB4)
          (I2cLcd.write4bits 0x00 h)) nak = run (I2cLcd.write 0x0F) nak
      ∧ run (fun h => I2cLcd.write4bits (DB6 ||| DB5) (I2cLcd.write4bits 0x00 h)) nak
          = run (I2cLcd.write 0x06) nak
      ∧ run I2cLcd.ctor_display_control nak = run (I2cLcd.write 0x0F) nak ++ [Event.sleep 5]
      ∧ run I2cLcd.ctor_entry_mode_set nak = run (I2cLcd.write 0x06) nak ++ [Event.sleep 5]
      ∧ 0x0F = ((DISPLAY_ON ||| DB2) ||| DB1) ||| DB0
      ∧ 0x06 = ENTRY_MODE_SET ||| DB1 := by
  refine ⟨rfl, rfl, rfl, rfl, by decide, by decide⟩

set_option maxRecDepth 100000 in
theorem write4bits_timing : ∀ val : Fin 256,
    emitted (I2cLcd.write4bits val.val) =
        [Event.frame [PCF8574T_WRITE, val.val],
         Event.frame [PCF8574T_WRITE, (val.val ||| BT) ||| EN],
         Event.sleep 1,
         Event.frame [PCF8574T_WRITE, (val.val ||| BT) &&& cnot EN],
         Event.sleep 1]
      ∧ ((val.val ||| BT) ||| EN) &&& EN = EN
      ∧ ((val.val ||| BT) &&& cnot EN) &&& EN = 0
      ∧ settle_after (emitted (I2cLcd.write4bits val.val)) = [0, 1, 1] := by
  decide

/-- C15: for every 8-bit val the trace of `write4bits(val)` is the settle
write, the strobe write (EN = 1), a sleep of 1 ms, the release write (EN = 0)
and a sleep of 1 ms, in this order and with nothing after it: the strobe is
held 1 ms before the release, and 1 ms passes after the release before
`write4bits` returns. -/
theorem C15_write4bits_enable_timing (val : Nat) (hval : val < 256) (nak : Nat → Bool) :
    run (I2cLcd.write4bits val) nak =
        [Event.frame [PCF8574T_WRITE, val],
         Event.frame [PCF8574T_WRITE, (val ||| BT) ||| EN],
         Event.sleep 1,
         Event.frame [PCF8574T_WRITE, (val ||| BT) &&& cnot EN],
         Event.sleep 1]
      ∧ ((val ||| BT) ||| EN) &&& EN = EN
      ∧ ((val ||| BT) &&& cnot EN) &&& EN = 0
      ∧ settle_after (run (I2cLcd.write4bits val) nak) = [0, 1, 1] := by
  rw [(emits_write4bits val).run_eq nak]
  exact write4bits_timing ⟨val, hval⟩

/-- C15 at val = 0x20, the nibble the constructor sends first. -/
theorem C15_write4bits_enable_timing_witness :
    0x20 < 256 ∧
    (run (I2cLcd.write4bits 0x20) allAck =
        [Event.frame [PCF8574T_WRITE, 0x20],
         Event.frame [PCF8574T_WRITE, (0x20 ||| BT) ||| EN],
         Event.sleep 1,
         Event.frame [PCF8574T_WRITE, (0x20 ||| BT) &&& cnot EN],
         Event.sleep 1]
      ∧ ((0x20 ||| BT) ||| EN) &&& EN = EN
      ∧ ((0x20 ||| BT) &&& cnot EN) &&& EN = 0
      ∧ settle_after (run (I2cLcd.write4bits 0x20) allAck) = [0, 1, 1]) :=
  ⟨by decide, C15_write4bits_enable_timing 0x20 (by decide) allAck⟩

/-! ## The receiver side of a byte transfer -/

set_option maxRecDepth 100000 in
theorem receive_byte : ∀ V : Fin 256,
    receive (emitted (I2cLcd.write V.val)) = [(false, V.val)]
      ∧ receive (emitted (I2cLcd.putchar V.val)) = [(true, V.val)]
      ∧ (latch (payloads (emitted (I2cLcd.write V.val)))).map Prod.fst = [false, false]
      ∧ (latch (payloads (emitted (I2cLcd.putchar V.val)))).map Prod.fst = [true, true] := by
  decide

/-- C16: a receiver that latches the data lines and RS of every payload with
EN set and assembles consecutive latched nibbles as (high, low) decodes the
trace of `write(V)` to the single word V with RS = 0 and the trace of
`putchar(V)` to the single word V with RS = 1 (both latched nibbles carry that
RS), for every 8-bit V; hence two 8-bit arguments with the same `write` trace,
or the same `putchar` trace, are equal. -/
theorem C16_receiver_decodes_one_word (V : Nat) (hV : V < 256) (nak : Nat → Bool) :
    receive (run (I2cLcd.write V) nak) = [(false, V)]
      ∧ receive (run (I2cLcd.putchar V) nak) = [(true, V)]
      ∧ (latch (payloads (run (I2cLcd.write V) nak))).map Prod.fst = [false, false]
      ∧ (latch (payloads (run (I2cLcd.putchar V) nak))).map Prod.fst = [true, true]
      ∧ (∀ W : Nat, W < 256 → run (I2cLcd.write W) nak = run (I2cLcd.write V) nak → W = V)
      ∧ (∀ W : Nat, W < 256 →
          run (I2cLcd.putchar W) nak = run (I2cLcd.putchar V) nak → W = V) := by
  have hw : ∀ U : Nat, U < 256 → receive (run (I2cLcd.write U) nak) = [(false, U)] := by
    intro U hU
    rw [(emits_write U).run_eq nak]
    exact (receive_byte ⟨U, hU⟩).1
  have hp : ∀ U : Nat, U < 256 → receive (run (I2cLcd.putchar U) nak) = [(true, U)] := by
    intro U hU
    rw [(emits_putchar U).run_eq nak]
    exact (receive_byte ⟨U, hU⟩).2.1
  refine ⟨hw V hV, hp V hV, ?_, ?_, ?_, ?_⟩
  · rw [(emits_write V).run_eq nak]
    exact (receive_byte ⟨V, hV⟩).2.2.1
  · rw [(emits_putchar V).run_eq nak]
    exact (receive_byte ⟨V, hV⟩).2.2.2
  · intro W hW h
    have e := hw W hW
    rw [h, hw V hV] at e
    simpa using e.symm
  · intro W hW h
    have e := hp W hW
    rw [h, hp V hV] at e
    simpa using e.symm

/-- C16 at V = 0x41. -/
theorem C16_receiver_decodes_one_word_witness :
    0x41 < 256 ∧
    (receive (run (I2cLcd.write 0x41) allAck) = [(false, 0x41)]
      ∧ receive (run (I2cLcd.putchar 0x41) allAck) = [(true, 0x41)]
      ∧ (latch (payloads (run (I2cLcd.write 0x41) allAck))).map Prod.fst = [false, false]
      ∧ (latch (payloads (run (I2cLcd.putchar 0x41) allAck))).map Prod.fst = [true, true]
      ∧ (∀ W : Nat, W < 256 →
          run (I2cLcd.write W) allAck = run (I2cLcd.write 0x41) allAck → W = 0x41)
      ∧ (∀ W : Nat, W < 256 →
          run (I2cLcd.putchar W) allAck = run (I2cLcd.putchar 0x41) allAck → W = 0x41)) :=
  ⟨by decide, C16_receiver_decodes_one_word 0x41 (by decide) allAck⟩

set_option maxRecDepth 100000 in
theorem putchar_vs_write : ∀ c : Fin 256,
    emitted (I2cLcd.putchar c.val) = (emitted (I2cLcd.write c.val)).map (or_into (RS ||| BT))
      ∧ (emitted (I2cLcd.putchar c.val)).length = (emitted (I2cLcd.write c.val)).length
      ∧ settle_after (emitted (I2cLcd.putchar c.val)) = settle_after (emitted (I2cLcd.write c.val))
      ∧ payloads (emitted (I2cLcd.putchar c.val))
          = (payloads (emitted (I2cLcd.write c.val))).map (fun p => p ||| 0x09)
      ∧ (∀ p ∈ payloads (emitted (I2cLcd.putchar c.val)), p &&& BT = BT) := by
  decide

/-- C17: for every 8-bit c the trace of `putchar(c)` is the trace of `write(c)`
with RS | BT = 0x09 OR-ed into the payload of every frame: the same number of
events, the same sleeps at the same places, every payload that of `write(c)`
OR 0x09; in particular every payload of `putchar(c)` has the backlight bit
set. -/
theorem C17_putchar_is_write_with_RS_and_BT (c : Nat) (hc : c < 256) (nak : Nat → Bool) :
    RS ||| BT = 0x09
      ∧ run (I2cLcd.putchar c) nak = (run (I2cLcd.write c) nak).map (or_into (RS ||| BT))
      ∧ (run (I2cLcd.putchar c) nak).length = (run (I2cLcd.write c) nak).length
      ∧ settle_after (run (I2cLcd.putchar c) nak) = settle_after (run (I2cLcd.write c) nak)
      ∧ payloads (run (I2cLcd.putchar c) nak)
          = (payloads (run (I2cLcd.write c) nak)).map (fun p => p ||| 0x09)
      ∧ (∀ p ∈ payloads (run (I2cLcd.putchar c) nak), p &&& BT = BT) := by
  refine ⟨by decide, ?_⟩
  rw [(emits_putchar c).run_eq nak, (emits_write c).run_eq nak]
  exact putchar_vs_write ⟨c, hc⟩

/-- C17 at c = 0x30, the digit 0. -/
theorem C17_putchar_is_write_with_RS_and_BT_witness :
    0x30 < 256 ∧
    (RS ||| BT = 0x09
      ∧ run (I2cLcd.putchar 0x30) allAck
          = (run (I2cLcd.write 0x30) allAck).map (or_into (RS ||| BT))
      ∧ (run (I2cLcd.putchar 0x30) allAck).length = (run (I2cLcd.write 0x30) allAck).length
      ∧ settle_after (run (I2cLcd.putchar 0x30) allAck)
          = settle_after (run (I2cLcd.write 0x30) allAck)
      ∧ payloads (run (I2cLcd.putchar 0x30) allAck)
          = (payloads (run (I2cLcd.write 0x30) allAck)).map (fun p => p ||| 0x09)
      ∧ (∀ p ∈ payloads (run (I2cLcd.putchar 0x30) allAck), p &&& BT = BT)) :=
  ⟨by decide, C17_putchar_is_write_with_RS_and_BT 0x30 (by decide) allAck⟩

set_option maxRecDepth 100000 in
theorem enable_pattern : ∀ V : Fin 256,
    (payloads (emitted (I2cLcd.write V.val))).map (fun p => p &&& EN) = [0, EN, 0, 0, EN, 0]
      ∧ (payloads (emitted (I2cLcd.putchar V.val))).map (fun p => p &&& EN)
          = [0, EN, 0, 0, EN, 0] := by
  decide

/-- C18: for every 8-bit V, of the six payloads of `write(V)`, and of the six
payloads of `putchar(V)`, exactly the second and the fifth have the EN bit set
and the other four have it clear: two enable pulses per byte. -/
theorem C18_two_enable_pulses_per_byte (V : Nat) (hV : V < 256) (nak : Nat → Bool) :
    (payloads (run (I2cLcd.write V) nak)).map (fun p => p &&& EN) = [0, EN, 0, 0, EN, 0]
      ∧ (payloads (run (I2cLcd.putchar V) nak)).map (fun p => p &&& EN)
          = [0, EN, 0, 0, EN, 0]
      ∧ EN = 4 := by
  refine ⟨?_, ?_, rfl⟩
  · rw [(emits_write V).run_eq nak]
    exact (enable_pattern ⟨V, hV⟩).1
  · rw [(emits_putchar V).run_eq nak]
    exact (enable_pattern ⟨V, hV⟩).2

/-- C18 at V = 0xFF. -/
theorem C18_two_enable_pulses_per_byte_witness :
    0xFF < 256 ∧
    ((payloads (run (I2cLcd.write 0xFF) allAck)).map (fun p => p &&& EN) = [0, EN, 0, 0, EN, 0]
      ∧ (payloads (run (I2cLcd.putchar 0xFF) allAck)).map (fun p => p &&& EN)
          = [0, EN, 0, 0, EN, 0]
      ∧ EN = 4) :=
  ⟨by decide, C18_two_enable_pulses_per_byte 0xFF (by decide) allAck⟩

/-- C19: as 8-bit words `ENTRY_MODE_SHIFT_RIGHT` is 0x06, an Entry-Mode-Set
instruction with I/D = 1, but `ENTRY_MODE_SHIFT_LEFT` = `ENTRY_MODE_SET | (~DB1)`
is 0xFD: the bits 3 to 7 and the bit 0 are set, so it is not an Entry-Mode-Set
instruction, and the two words differ in every bit except bit 2. -/
theorem C19_entry_mode_shift_left_is_0xFD :
    u8 ENTRY_MODE_SHIFT_RIGHT = 0x06
      ∧ u8 ENTRY_MODE_SHIFT_LEFT = 0xFD
      ∧ u8 ENTRY_MODE_SHIFT_LEFT &&& 0xF8 = 0xF8
      ∧ u8 ENTRY_MODE_SHIFT_LEFT &&& DB0 = DB0
      ∧ u8 ENTRY_MODE_SHIFT_LEFT &&& DB2 = DB2
      ∧ u8 ENTRY_MODE_SHIFT_LEFT &&& DB1 = 0
      ∧ u8 ENTRY_MODE_SHIFT_LEFT ^^^ u8 ENTRY_MODE_SHIFT_RIGHT = 0xFB := by
  decide
